import Mathlib

/-!
# Verification of the DMS analytics dashboard (dms_analytics.py / pdf_generator.py)

A shallow embedding of the data model and operations of the repository:
- text values are lists of Unicode scalar values (`Str`);
- `safe_text` / `sanitizeStr` embeds `CustomPDF.safe_text` (pdf_generator.py,
  lines 49-61): a chain of `str.replace` calls followed by
  `encode('ascii','ignore')`;
- tables are lists of typed rows; pandas `value_counts`, `nlargest`,
  boolean-mask filtering and left merges are modelled on those lists;
- the PDF artifact is modelled as the ordered list of text cells the report
  builder writes (`create_pdf_report`, pdf_generator.py, lines 98-257);
- the data loader (`load_data`, dms_analytics.py, lines 46-81) is modelled
  over fallible per-table reads (`Except`).
-/

/-- A Python `str`: a sequence of Unicode scalar values. -/
abbrev Str := List Char

/-- One step of Python `str.replace(p, r)`, structurally recursive on an
explicit fuel argument so that it evaluates by kernel reduction.  The fuel
never runs out when it starts at the string length (each step consumes at
least one character and one unit of fuel). -/
def replaceAllF (p r : Str) : Nat → Str → Str
  | _, [] => []
  | 0, s => s
  | fuel+1, c :: cs =>
    if p ≠ [] ∧ List.take p.length (c :: cs) = p then
      r ++ replaceAllF p r fuel (List.drop p.length (c :: cs))
    else
      c :: replaceAllF p r fuel cs

/-- Python `s.replace(p, r)`: replace every non-overlapping occurrence of
`p` in `s` by `r`, scanning left to right. -/
def replaceAll (p r s : Str) : Str := replaceAllF p r s.length s

/-- Mojibake pattern `'â€¢'` of pdf_generator.py line 53 (codepoints E2 20AC A2). -/
def pat1 : Str := [Char.ofNat 0xE2, Char.ofNat 0x20AC, Char.ofNat 0xA2]

/-- Mojibake pattern `'âœ…'` of line 54 (codepoints E2 153 2026). -/
def pat2 : Str := [Char.ofNat 0xE2, Char.ofNat 0x153, Char.ofNat 0x2026]

/-- Mojibake pattern `'âŒ'` of line 55 (codepoints E2 152). -/
def pat3 : Str := [Char.ofNat 0xE2, Char.ofNat 0x152]

/-- Mojibake pattern `'ðŸ“Š'` of line 56 (codepoints F0 178 201C 160). -/
def pat4 : Str := [Char.ofNat 0xF0, Char.ofNat 0x178, Char.ofNat 0x201C, Char.ofNat 0x160]

/-- Mojibake pattern `'ðŸ“„'` of line 57 (codepoints F0 178 201C 201E). -/
def pat5 : Str := [Char.ofNat 0xF0, Char.ofNat 0x178, Char.ofNat 0x201C, Char.ofNat 0x201E]

/-- Mojibake pattern `'ðŸ”„'` of line 58 (codepoints F0 178 201D 201E). -/
def pat6 : Str := [Char.ofNat 0xF0, Char.ofNat 0x178, Char.ofNat 0x201D, Char.ofNat 0x201E]

/-- The string branch of `CustomPDF.safe_text` (pdf_generator.py lines 51-60):
six `str.replace` substitutions followed by `encode('ascii','ignore')`,
which drops every character with codepoint ≥ 128. -/
def sanitizeStr (s : Str) : Str :=
  (replaceAll pat6 "[REFRESH]".data
    (replaceAll pat5 "[DOC]".data
      (replaceAll pat4 "[CHART]".data
        (replaceAll pat3 "[ERROR]".data
          (replaceAll pat2 "[OK]".data
            (replaceAll pat1 "-".data s)))))).filter (fun c => decide (c.toNat < 128))

/-- A dynamically typed Python value as it reaches `safe_text` or an
f-string: a `str`, an integer, a pandas Timestamp, or a missing value
(NaN/NaT/None). -/
inductive PyVal where
  | s (v : Str)
  | i (v : Int)
  | ts (v : Int)
  | na
deriving DecidableEq

/-- Rendering Python `str(pd.Timestamp)`.  The calendar formatting itself is
outside the embedding; this stand-in is injective in the underlying time
value, which is all the claims inspect. -/
def strOfTs (v : Int) : Str := (toString v).data

/-- Python `str(value)`.  `str` on a string is the identity; `str(nan)` is
`"nan"`. -/
def pyStr : PyVal → Str
  | .s v => v
  | .i v => (toString v).data
  | .ts v => strOfTs v
  | .na => "nan".data

/-- `CustomPDF.safe_text` (pdf_generator.py lines 49-61): the
replacement-and-strip pipeline runs only when the input `isinstance(text, str)`;
every other value is returned as `str(text)`. -/
def safe_text : PyVal → Str
  | .s v => sanitizeStr v
  | .i v => pyStr (.i v)
  | .ts v => pyStr (.ts v)
  | .na => pyStr .na

-- ### pandas `Series.value_counts` on a column with possible nulls

section ValueCounts

variable {α : Type} [DecidableEq α]

/-- Number of occurrences of `v` in `l`. -/
def countOcc (v : α) (l : List α) : Nat := (l.filter (fun x => decide (x = v))).length

/-- The distinct values of `l` in order of first occurrence. -/
def dedupFirst : List α → List α
  | [] => []
  | a :: l => a :: (dedupFirst l).filter (fun b => decide (b ≠ a))

/-- Insert into a count-descending list, after existing entries with a
strictly larger count and before entries with an equal or smaller count
(so that earlier-computed entries win ties). -/
def insertCD (x : α × Nat) : List (α × Nat) → List (α × Nat)
  | [] => [x]
  | y :: ys => if x.2 < y.2 then y :: insertCD x ys else x :: y :: ys

/-- Stable insertion sort by count, descending. -/
def sortCD : List (α × Nat) → List (α × Nat)
  | [] => []
  | x :: xs => insertCD x (sortCD xs)

/-- pandas `Series.value_counts()` with its defaults: null entries are
dropped (`dropna=True`), each distinct remaining value is paired with its
frequency, and the pairs are sorted by frequency descending with ties in
first-encountered order. -/
def valueCounts (vs : List (Option α)) : List (α × Nat) :=
  sortCD ((dedupFirst (vs.filterMap id)).map
    (fun v => (v, countOcc v (vs.filterMap id))))

end ValueCounts

-- ### Data model: rows of the loaded tables

/-- A row of the `documents` table after the left merge with
`document_types` (dms_analytics.py line 64): `name` is the joined
document-type display name, null (`none`) when the `doc_type` foreign key
has no match or is itself null. -/
structure DocRow where
  doc_id : Int
  title : Option Str
  name : Option Str
  status : Option Str
  created_at : Option Int
  department_id : Option Int
deriving DecidableEq

/-- A row of the `users` table after the left merge with `departments`
(dms_analytics.py line 67); `dept_name` is the joined department display
name. -/
structure UserRow where
  user_id : Int
  role : Option Str
  status : Option Str
  department_id : Option Int
  dept_name : Option Str
deriving DecidableEq

/-- A row of `announcements` or `notifications`. -/
structure AnnRow where
  ann_id : Int
  title : Option Str
  status : Option Str
  created_at : Option Int
deriving DecidableEq

/-- A row of the `departments` lookup table. -/
structure DeptRow where
  department_id : Int
  name : Str
deriving DecidableEq

/-- A row of the `document_types` lookup table. -/
structure TypeRow where
  type_id : Int
  name : Str
deriving DecidableEq

/-- A raw `dms_documents` row before the type merge. -/
structure RawDoc where
  doc_id : Int
  title : Option Str
  doc_type : Option Int
  status : Option Str
  created_at : Option Int
  department_id : Option Int
deriving DecidableEq

/-- A raw `dms_user` row before the department merge. -/
structure RawUser where
  user_id : Int
  role : Option Str
  status : Option Str
  department_id : Option Int
deriving DecidableEq

/-- The mapping returned by `load_data` (dms_analytics.py lines 69-78).
Rows of tables the claims never inspect are reduced to their identifiers. -/
structure DataMap where
  users : List UserRow
  documents : List DocRow
  announcements : List AnnRow
  notifications : List AnnRow
  doc_versions : List Int
  doc_depts : List (Int × Int)
  departments : List DeptRow
  document_types : List TypeRow
deriving DecidableEq

/-- The left merge `documents.merge(document_types, left_on='doc_type',
right_on='type_id', how='left')` of dms_analytics.py line 64: every
document row is kept; unmatched (or null) foreign keys yield a null
display name; several matching type rows duplicate the document row. -/
def mergeDocsTypes (docs : List RawDoc) (types : List TypeRow) : List DocRow :=
  (docs.map (fun d =>
    let ms := types.filter (fun t => decide (d.doc_type = some t.type_id))
    if ms.isEmpty then
      [{ doc_id := d.doc_id, title := d.title, name := none, status := d.status,
         created_at := d.created_at, department_id := d.department_id }]
    else
      ms.map (fun t =>
        { doc_id := d.doc_id, title := d.title, name := some t.name,
          status := d.status, created_at := d.created_at,
          department_id := d.department_id }))).flatten

/-- The left merge `users.merge(departments, on='department_id',
how='left')` of dms_analytics.py line 67. -/
def mergeUsersDepts (us : List RawUser) (depts : List DeptRow) : List UserRow :=
  (us.map (fun u =>
    let ms := depts.filter (fun t => decide (u.department_id = some t.department_id))
    if ms.isEmpty then
      [{ user_id := u.user_id, role := u.role, status := u.status,
         department_id := u.department_id, dept_name := none }]
    else
      ms.map (fun t =>
        { user_id := u.user_id, role := u.role, status := u.status,
          department_id := u.department_id, dept_name := some t.name }))).flatten

/-- `load_data` (dms_analytics.py lines 46-81).  The connection handle may
be unavailable (`init_connection` returned `None`); each of the eight
`pd.read_sql` calls may raise, modelled by `Except`.  The `try` block
yields a mapping only when the connection and every read succeed; any
failure is caught and collapses to the single sentinel `none`. -/
def load_data (engine : Option Unit)
    (qUsers : Except Str (List RawUser))
    (qDocs : Except Str (List RawDoc))
    (qTypes : Except Str (List TypeRow))
    (qDepts : Except Str (List DeptRow))
    (qAnns : Except Str (List AnnRow))
    (qNotifs : Except Str (List AnnRow))
    (qVersions : Except Str (List Int))
    (qDocDepts : Except Str (List (Int × Int))) : Option DataMap :=
  match engine with
  | none => none
  | some _ =>
    match qUsers, qDocs, qTypes, qDepts, qAnns, qNotifs, qVersions, qDocDepts with
    | .ok us, .ok ds, .ok ts, .ok dp, .ok an, .ok nt, .ok vv, .ok dd =>
      some { users := mergeUsersDepts us dp
             documents := mergeDocsTypes ds ts
             announcements := an
             notifications := nt
             doc_versions := vv
             doc_depts := dd
             departments := dp
             document_types := ts }
    | _, _, _, _, _, _, _, _ => none

-- ### Date filtering (dms_analytics.py lines 111-115)

/-- A row of a generic table passed to `filter_data`; `ts` holds the
value of the timestamp column named by the caller (`none` models a null
timestamp, which fails both pandas comparisons). -/
structure PRow where
  rid : Int
  ts : Option Int
deriving DecidableEq

/-- A generic table: its column-name list and its rows. -/
structure PTable where
  cols : List Str
  rows : List PRow
deriving DecidableEq

/-- `filter_data(df, date_col)` (dms_analytics.py lines 111-115): when the
configured date range has exactly two endpoints and the column exists,
keep the rows whose timestamp is within both inclusive bounds; otherwise
return the table unchanged. -/
def filter_data (date_range : List Int) (df : PTable) (date_col : Str) : PTable :=
  if date_range.length = 2 ∧ date_col ∈ df.cols then
    { df with rows := df.rows.filter (fun r =>
        match r.ts with
        | some t => decide (date_range.getD 0 0 ≤ t) && decide (t ≤ date_range.getD 1 0)
        | none => false) }
  else df

-- ### Category filters (dms_analytics.py lines 122-127)

/-- `dept_ids` of dms_analytics.py line 123: the department identifiers of
the departments whose display name is in the selection. -/
def deptFilterIds (sel : List Str) (departments : List DeptRow) : List Int :=
  (departments.filter (fun t => decide (t.name ∈ sel))).map (fun t => t.department_id)

/-- The department filter (dms_analytics.py lines 122-124): skipped when
the selection is empty (Python truthiness); otherwise keeps rows whose
`department_id` is one of `dept_ids` (a null id is in no selection). -/
def applyDeptFilter (sel : List Str) (departments : List DeptRow)
    (docs : List DocRow) : List DocRow :=
  if sel = [] then docs
  else
    docs.filter (fun d =>
      match d.department_id with
      | some i => decide (i ∈ deptFilterIds sel departments)
      | none => false)

/-- The document-type filter (dms_analytics.py lines 126-127): skipped when
the selection is empty; otherwise keeps rows whose joined type display name
is in the selection (a null name is in no selection). -/
def applyTypeFilter (sel : List Str) (docs : List DocRow) : List DocRow :=
  if sel = [] then docs
  else
    docs.filter (fun d =>
      match d.name with
      | some n => decide (n ∈ sel)
      | none => false)

/-- The department display name a left join of the document with
`departments` would attach to the row: the name of the first department
row matching the foreign key, null when the key is null or unmatched. -/
def joinedDeptName (departments : List DeptRow) (d : DocRow) : Option Str :=
  match d.department_id with
  | some i => (departments.find? (fun t => decide (t.department_id = i))).map (fun t => t.name)
  | none => none

/-- Modelled from the spec's words (spec §4.1): category filters keep
exactly the rows whose joined display name is a member of the selection. -/
def specDeptKeep (sel : List Str) (departments : List DeptRow) (d : DocRow) : Bool :=
  match joinedDeptName departments d with
  | some n => decide (n ∈ sel)
  | none => false

-- ### The report builder (pdf_generator.py lines 98-257)

/-- Decimal rendering of a count. -/
def natStr (n : Nat) : Str := (toString n).data

/-- Python `', '.join(parts)`. -/
def joinComma (parts : List Str) : Str := (List.intersperse ", ".data parts).flatten

/-- pandas `Timestamp.strftime('%Y-%m-%d %H:%M')` (pdf_generator.py line
213); the calendar formatting is abstracted, injectively in the time value. -/
def strftimeHM (t : Int) : Str := (toString t).data

/-- pandas `Timestamp.strftime('%Y-%m-%d')` (pdf_generator.py line 248). -/
def strftimeD (t : Int) : Str := (toString t).data

/-- `row.get('title', 'N/A')` as the Python value reaching `safe_text`:
the column exists, so a null cell arrives as NaN (not as the default). -/
def pyTitle (d : DocRow) : PyVal :=
  match d.title with
  | some t => .s t
  | none => .na

/-- An optional string cell as the Python value reaching `safe_text`. -/
def pyOptStr (o : Option Str) : PyVal :=
  match o with
  | some t => .s t
  | none => .na

/-- Sort key used by `nlargest(5, 'created_at')`; only applied to rows
whose timestamp is non-null. -/
def tsKey (d : DocRow) : Int := d.created_at.getD 0

/-- Insert into a timestamp-descending list after entries with a strictly
larger key and before entries with an equal or smaller key (earlier rows
win ties, matching `keep='first'`). -/
def insertTsDesc (x : DocRow) : List DocRow → List DocRow
  | [] => [x]
  | y :: ys => if tsKey x < tsKey y then y :: insertTsDesc x ys else x :: y :: ys

/-- Stable insertion sort by creation timestamp, descending. -/
def sortTsDesc : List DocRow → List DocRow
  | [] => []
  | x :: xs => insertTsDesc x (sortTsDesc xs)

/-- pandas `DataFrame.nlargest(n, 'created_at')` (pdf_generator.py line
204): rows with a null key are excluded, the rest are ordered by the key
descending (ties kept in row order, `keep='first'`), and the first `n`
are returned. -/
def nlargestByCreated (n : Nat) (rows : List DocRow) : List DocRow :=
  (sortTsDesc (rows.filter (fun d => d.created_at.isSome))).take n

/-- The `f"- {safe_title}"` cell of pdf_generator.py lines 216 and 220:
the sanitized title is truncated to 50 characters with an ellipsis marker
when the raw `str(title)` is longer than 50 characters. -/
def recentTitleCell (d : DocRow) : Str :=
  if 50 < (pyStr (pyTitle d)).length then
    "- ".data ++ ((safe_text (pyTitle d)).take 50 ++ "...".data)
  else
    "- ".data ++ safe_text (pyTitle d)

/-- The `f"  Type: ... | Status: ... | Created: ..."` cell of
pdf_generator.py line 221; note the creation time is embedded without
`safe_text`. -/
def recentInfoCell (d : DocRow) : Str :=
  "  Type: ".data ++ safe_text (pyOptStr d.name) ++
  " | Status: ".data ++ safe_text (pyOptStr d.status) ++
  " | Created: ".data ++
  (match d.created_at with
   | some t => strftimeHM t
   | none => "NaT".data)

/-- Report metadata block, pdf_generator.py lines 105-111.  Lines 109-110
embed the raw filter selections without passing them through `safe_text`. -/
def metadataSection (now : Str) (date_range : List Str)
    (department_filter doc_type_filter : List Str) : List Str :=
  [ "Report Generated: ".data ++ now,
    "Date Range: ".data ++ date_range.getD 0 [] ++ " to ".data ++ date_range.getD 1 [],
    "Departments: ".data ++
      (if department_filter ≠ [] then joinComma department_filter
       else "All Departments".data),
    "Document Types: ".data ++
      (if doc_type_filter ≠ [] then joinComma doc_type_filter
       else "All Types".data) ]

/-- `add_metric_card` (pdf_generator.py lines 63-70): one cell
`f"{safe_title}: {safe_value}"`. -/
def metricCard (title : Str) (value : PyVal) : Str :=
  safe_text (.s title) ++ ": ".data ++ safe_text value

/-- `total_docs` of pdf_generator.py line 117. -/
def total_docs (data : DataMap) : Nat := data.documents.length

/-- `total_users` of pdf_generator.py line 118. -/
def total_users (data : DataMap) : Nat := data.users.length

/-- `active_docs` of pdf_generator.py line 119: documents of the unfiltered
table whose status equals `'active'`. -/
def active_docs (data : DataMap) : Nat :=
  (data.documents.filter (fun d => decide (d.status = some "active".data))).length

/-- `total_announcements` of pdf_generator.py line 120. -/
def total_announcements (data : DataMap) : Nat := data.announcements.length

/-- Executive summary block, pdf_generator.py lines 113-129: computed from
the unfiltered tables of the loaded mapping. -/
def execSummarySection (data : DataMap) : List Str :=
  [ "EXECUTIVE SUMMARY".data,
    metricCard "Total Documents".data (.i (total_docs data)),
    metricCard "Total Users".data (.i (total_users data)),
    metricCard "Active Documents".data (.i (active_docs data)),
    metricCard "Announcements".data (.i (total_announcements data)) ]

/-- One `f"- {safe_doc_type}: {count} documents"` line per entry of
`value_counts` (pdf_generator.py lines 141-144). -/
def docTypeLines (fd : List DocRow) : List Str :=
  (valueCounts (fd.map (fun d => d.name))).map (fun p =>
    "- ".data ++ safe_text (.s p.1) ++ ": ".data ++ natStr p.2 ++ " documents".data)

/-- One line per entry of the status `value_counts` (lines 153-156). -/
def docStatusLines (fd : List DocRow) : List Str :=
  (valueCounts (fd.map (fun d => d.status))).map (fun p =>
    "- ".data ++ safe_text (.s p.1) ++ ": ".data ++ natStr p.2 ++ " documents".data)

/-- Document analysis block, pdf_generator.py lines 131-161, computed from
the filtered document table. -/
def docAnalysisSection (fd : List DocRow) : List Str :=
  "DOCUMENT ANALYSIS".data ::
  (if fd ≠ [] then
    ("Documents by Type:".data :: docTypeLines fd) ++
    ("Documents by Status:".data :: docStatusLines fd)
  else ["No document data available for selected filters".data])

/-- One `f"- {safe_role}: {count} users"` line per entry of the role
`value_counts` (pdf_generator.py lines 173-176). -/
def userRoleLines (us : List UserRow) : List Str :=
  (valueCounts (us.map (fun u => u.role))).map (fun p =>
    "- ".data ++ safe_text (.s p.1) ++ ": ".data ++ natStr p.2 ++ " users".data)

/-- One line per entry of the user status `value_counts` (lines 185-188). -/
def userStatusLines (us : List UserRow) : List Str :=
  (valueCounts (us.map (fun u => u.status))).map (fun p =>
    "- ".data ++ safe_text (.s p.1) ++ ": ".data ++ natStr p.2 ++ " users".data)

/-- User analysis block, pdf_generator.py lines 163-193, computed from the
unfiltered user table. -/
def userAnalysisSection (data : DataMap) : List Str :=
  "USER ANALYSIS".data ::
  (if data.users ≠ [] then
    ("Users by Role:".data :: userRoleLines data.users) ++
    ("Users by Status:".data :: userStatusLines data.users)
  else ["No user data available".data])

/-- Recent activity block, pdf_generator.py lines 195-226. -/
def recentActivitySection (fd : List DocRow) : List Str :=
  "RECENT ACTIVITY".data ::
  (if fd ≠ [] then
    "Recent Documents:".data ::
      ((nlargestByCreated 5 fd).map (fun d => [recentTitleCell d, recentInfoCell d])).flatten
  else ["No recent activity data available".data])

/-- The five cells of one detailed-table row (pdf_generator.py lines
240-255).  `add_table_row` passes every cell through `safe_text` again;
the title is truncated to 40 characters with an ellipsis marker when the
raw `str(title)` is longer. -/
def detailRowCells (d : DocRow) : List Str :=
  let title := pyStr (pyTitle d)
  let safe_title :=
    if 40 < title.length then (sanitizeStr title).take 40 ++ "...".data
    else sanitizeStr title
  [ safe_text (.i d.doc_id),
    safe_text (.s safe_title),
    safe_text (.s (safe_text (pyOptStr d.name))),
    safe_text (.s (safe_text (pyOptStr d.status))),
    safe_text (match d.created_at with
      | some t => .s (strftimeD t)
      | none => .na) ]

/-- The detailed-table data rows, one per record of the filtered table,
in the filtered table's row order (`iterrows`, line 240). -/
def detailedRows (fd : List DocRow) : List (List Str) := fd.map detailRowCells

/-- The sanitized header cells of the detailed table (lines 234-237). -/
def detailHeaderCells : List Str :=
  ["ID".data, "Title".data, "Type".data, "Status".data, "Created".data].map sanitizeStr

/-- Detailed document list, pdf_generator.py lines 228-256: emitted only
when the filtered table is nonempty and has at most 20 rows. -/
def detailedSection (fd : List DocRow) : List Str :=
  if fd ≠ [] ∧ fd.length ≤ 20 then
    "DETAILED DOCUMENT LIST".data :: detailHeaderCells ++ (detailedRows fd).flatten
  else []

/-- `create_pdf_report` (pdf_generator.py lines 98-257), as the ordered
sequence of text cells written into the artifact.  `now` stands for
`datetime.now().strftime(...)` of line 107; page-break machinery
(headers/footers) carries no data and is not modelled. -/
def create_pdf_report (data : DataMap) (filtered_docs : List DocRow) (now : Str)
    (date_range : List Str) (department_filter doc_type_filter : List Str) : List Str :=
  metadataSection now date_range department_filter doc_type_filter ++
  execSummarySection data ++
  docAnalysisSection filtered_docs ++
  userAnalysisSection data ++
  recentActivitySection filtered_docs ++
  detailedSection filtered_docs

-- ### Shared concrete sample data for witnesses and counterexamples

/-- A sample loaded mapping with all tables empty. -/
def exData : DataMap :=
  { users := [], documents := [], announcements := [], notifications := [],
    doc_versions := [], doc_depts := [], departments := [], document_types := [] }

/-- A compact document-row builder for concrete examples. -/
def exDoc (i : Int) (ty st : Option Str) (created dep : Option Int) : DocRow :=
  { doc_id := i, title := some "t".data, name := ty, status := st,
    created_at := created, department_id := dep }

/-- A one-row document table whose joined type display name is null (a
left-join miss, which the spec itself says is kept as a null name). -/
def cexNullName : List DocRow :=
  [{ doc_id := 1, title := none, name := none, status := some "active".data,
     created_at := none, department_id := none }]

-- ### Sanitizer lemmas and claims C4 / C10

-- ### Sanitizer lemmas

theorem replaceAllF_ascii_fix (p r : Str) (hp : ∃ c ∈ p, 128 ≤ c.toNat) :
    ∀ (fuel : Nat) (s : Str), (∀ c ∈ s, c.toNat < 128) → replaceAllF p r fuel s = s := by
  intro fuel
  induction fuel with
  | zero => intro s _; cases s <;> simp [replaceAllF]
  | succ n ih =>
    intro s hs
    cases s with
    | nil => simp [replaceAllF]
    | cons c cs =>
      rw [replaceAllF, if_neg]
      · rw [ih cs (fun x hx => hs x (List.mem_cons_of_mem _ hx))]
      · rintro ⟨_, htake⟩
        obtain ⟨x, hxp, hx⟩ := hp
        have hxs : x ∈ c :: cs := List.take_subset _ _ (htake ▸ hxp)
        exact absurd (hs x hxs) (by omega)

theorem replaceAll_ascii_fix (p r s : Str) (hp : ∃ c ∈ p, 128 ≤ c.toNat)
    (hs : ∀ c ∈ s, c.toNat < 128) : replaceAll p r s = s :=
  replaceAllF_ascii_fix p r hp s.length s hs

/-- Every character surviving the sanitizer is ASCII. -/
theorem sanitizeStr_ascii (s : Str) : ∀ c ∈ sanitizeStr s, c.toNat < 128 := by
  intro c hc
  have := List.of_mem_filter hc
  simpa using this

theorem pat1_nonascii : ∃ c ∈ pat1, 128 ≤ c.toNat := by decide
theorem pat2_nonascii : ∃ c ∈ pat2, 128 ≤ c.toNat := by decide
theorem pat3_nonascii : ∃ c ∈ pat3, 128 ≤ c.toNat := by decide
theorem pat4_nonascii : ∃ c ∈ pat4, 128 ≤ c.toNat := by decide
theorem pat5_nonascii : ∃ c ∈ pat5, 128 ≤ c.toNat := by decide
theorem pat6_nonascii : ∃ c ∈ pat6, 128 ≤ c.toNat := by decide

/-- On a string that is already all-ASCII the sanitizer is the identity:
none of the six mojibake patterns can occur (each contains a non-ASCII
character) and the ASCII strip keeps everything. -/
theorem sanitizeStr_of_ascii (s : Str) (hs : ∀ c ∈ s, c.toNat < 128) :
    sanitizeStr s = s := by
  unfold sanitizeStr
  rw [replaceAll_ascii_fix pat1 _ s pat1_nonascii hs,
      replaceAll_ascii_fix pat2 _ s pat2_nonascii hs,
      replaceAll_ascii_fix pat3 _ s pat3_nonascii hs,
      replaceAll_ascii_fix pat4 _ s pat4_nonascii hs,
      replaceAll_ascii_fix pat5 _ s pat5_nonascii hs,
      replaceAll_ascii_fix pat6 _ s pat6_nonascii hs]
  exact List.filter_eq_self.mpr (fun a ha => by simpa using hs a ha)

theorem sanitizeStr_idem (s : Str) : sanitizeStr (sanitizeStr s) = sanitizeStr s :=
  sanitizeStr_of_ascii _ (sanitizeStr_ascii s)

/-- C4: the text sanitizer is idempotent, and it returns every all-ASCII
string unchanged. -/
theorem claim_C4_sanitizer_idempotent_ascii_identity (v : Str) :
    safe_text (PyVal.s (safe_text (PyVal.s v))) = safe_text (PyVal.s v) ∧
    ((∀ c ∈ v, c.toNat < 128) → safe_text (PyVal.s v) = v) :=
  ⟨sanitizeStr_idem v, fun h => sanitizeStr_of_ascii v h⟩

theorem claim_C4_witness :
    safe_text (PyVal.s "Report".data) = "Report".data :=
  (claim_C4_sanitizer_idempotent_ascii_identity "Report".data).2 (by decide)

/-- C10: `safe_text` applies the replacement-and-strip pipeline only to
`str` inputs; every non-string value is rendered as `str(value)` untouched. -/
theorem claim_C10_safe_text_nonstring_passthrough (v : PyVal) :
    ((∀ w, v ≠ PyVal.s w) → safe_text v = pyStr v) ∧
    (∀ w, v = PyVal.s w → safe_text v = sanitizeStr w) := by
  constructor
  · intro h
    cases v with
    | s w => exact absurd rfl (h w)
    | i w => rfl
    | ts w => rfl
    | na => rfl
  · rintro w rfl
    rfl

theorem claim_C10_witness :
    safe_text (PyVal.i 42) = pyStr (PyVal.i 42) :=
  (claim_C10_safe_text_nonstring_passthrough (PyVal.i 42)).1 (fun _ h => nomatch h)

-- ### value-counts lemmas

section ValueCountsLemmas

variable {α : Type} [DecidableEq α]

theorem countOcc_cons (v a : α) (l : List α) :
    countOcc v (a :: l) = if a = v then countOcc v l + 1 else countOcc v l := by
  simp only [countOcc, List.filter_cons]
  split
  · next h => simp only [decide_eq_true_eq] at h; simp [h, List.length_cons]
  · next h => simp only [decide_eq_true_eq] at h; simp [h]

theorem countOcc_eq_zero (a : α) (l : List α) (h : a ∉ l) : countOcc a l = 0 := by
  simp only [countOcc, List.length_eq_zero]
  refine List.filter_eq_nil_iff.mpr (fun x hx => ?_)
  simp only [decide_eq_true_eq]
  rintro rfl
  exact h hx

theorem mem_dedupFirst (x : α) : ∀ l : List α, x ∈ dedupFirst l ↔ x ∈ l := by
  intro l
  induction l with
  | nil => simp [dedupFirst]
  | cons a l ih =>
    simp only [dedupFirst, List.mem_cons, List.mem_filter, decide_eq_true_eq]
    constructor
    · rintro (rfl | ⟨hx, _⟩)
      · exact Or.inl rfl
      · exact Or.inr (ih.mp hx)
    · rintro (rfl | hx)
      · exact Or.inl rfl
      · by_cases hxa : x = a
        · exact Or.inl hxa
        · exact Or.inr ⟨ih.mpr hx, hxa⟩

theorem nodup_dedupFirst : ∀ l : List α, (dedupFirst l).Nodup := by
  intro l
  induction l with
  | nil => simp [dedupFirst]
  | cons a l ih =>
    refine List.Nodup.cons ?_ (ih.filter _)
    intro hmem
    have := (List.mem_filter.mp hmem).2
    simp at this

theorem sum_split_mem (f : α → Nat) (a : α) :
    ∀ (u : List α), u.Nodup →
      (u.map f).sum =
        (if a ∈ u then f a else 0) +
          ((u.filter (fun b => decide (b ≠ a))).map f).sum := by
  intro u
  induction u with
  | nil => simp
  | cons b u ih =>
    intro hu
    rcases List.nodup_cons.mp hu with ⟨hb, hu2⟩
    by_cases hba : b = a
    · subst hba
      have hfc : (b :: u).filter (fun x => decide (x ≠ b)) = u := by
        rw [List.filter_cons]
        rw [if_neg (by simp)]
        exact List.filter_eq_self.mpr (fun x hx => by
          simp only [decide_eq_true_eq]
          rintro rfl
          exact hb hx)
      rw [hfc, if_pos (List.mem_cons_self b u)]
      simp
    · have hcond : (decide (b ≠ a)) = true := by simp [hba]
      simp only [List.filter_cons]
      rw [if_pos hcond]
      simp only [List.map_cons, List.sum_cons]
      rw [ih hu2]
      have hmem2 : (a ∈ b :: u) ↔ (a ∈ u) := by
        constructor
        · intro h
          rcases List.mem_cons.mp h with h1 | h1
          · exact absurd h1.symm hba
          · exact h1
        · exact fun h => List.mem_cons_of_mem _ h
      by_cases ha : a ∈ u
      · rw [if_pos (hmem2.mpr ha), if_pos ha]
        omega
      · rw [if_neg (fun hc => ha (hmem2.mp hc)), if_neg ha]
        omega

theorem sum_countOcc_dedupFirst : ∀ l : List α,
    ((dedupFirst l).map (fun v => countOcc v l)).sum = l.length := by
  intro l
  induction l with
  | nil => simp [dedupFirst]
  | cons a l ih =>
    simp only [dedupFirst, List.map_cons, List.sum_cons]
    have hmapeq :
        ((dedupFirst l).filter (fun b => decide (b ≠ a))).map (fun v => countOcc v (a :: l))
          = ((dedupFirst l).filter (fun b => decide (b ≠ a))).map (fun v => countOcc v l) := by
      apply List.map_congr_left
      intro v hv
      have hvne : v ≠ a := by
        have := (List.mem_filter.mp hv).2
        simpa using this
      rw [countOcc_cons]
      rw [if_neg (fun h => hvne h.symm)]
    rw [hmapeq]
    have hsplit :
        ((dedupFirst l).map (fun v => countOcc v l)).sum =
          (if a ∈ dedupFirst l then countOcc a l else 0) +
            (((dedupFirst l).filter (fun b => decide (b ≠ a))).map
              (fun v => countOcc v l)).sum :=
      sum_split_mem (fun v => countOcc v l) a (dedupFirst l) (nodup_dedupFirst l)
    rw [countOcc_cons, if_pos rfl]
    by_cases ha : a ∈ l
    · rw [if_pos ((mem_dedupFirst a l).mpr ha)] at hsplit
      simp only [List.length_cons]
      omega
    · have hz := countOcc_eq_zero a l ha
      rw [if_neg (fun hc => ha ((mem_dedupFirst a l).mp hc))] at hsplit
      simp only [List.length_cons]
      omega

theorem insertCD_perm (x : α × Nat) : ∀ l, (insertCD x l).Perm (x :: l) := by
  intro l
  induction l with
  | nil => simp [insertCD]
  | cons y ys ih =>
    rw [insertCD]
    split
    · exact ((ih.cons y).trans (List.Perm.swap x y ys))
    · exact List.Perm.refl _

theorem sortCD_perm : ∀ l : List (α × Nat), (sortCD l).Perm l := by
  intro l
  induction l with
  | nil => simp [sortCD]
  | cons x xs ih => exact (insertCD_perm x (sortCD xs)).trans (ih.cons x)

/-- The counts reported by `value_counts` sum to the number of non-null
entries of the column (nulls are excluded by `dropna=True`). -/
theorem valueCounts_sum (vs : List (Option α)) :
    ((valueCounts vs).map Prod.snd).sum = (vs.filterMap id).length := by
  unfold valueCounts
  have hperm :=
    (sortCD_perm ((dedupFirst (vs.filterMap id)).map
      (fun v => (v, countOcc v (vs.filterMap id))))).map Prod.snd
  rw [hperm.sum_eq, List.map_map]
  simpa using sum_countOcc_dedupFirst (vs.filterMap id)

theorem length_filterMap_id (vs : List (Option α)) :
    (vs.filterMap id).length = (vs.filter (fun o => o.isSome)).length := by
  induction vs with
  | nil => rfl
  | cons o vs ih => cases o <;> simp [ih]

end ValueCountsLemmas

-- ### C6: the generic date filter

/-- C6: with a two-endpoint range and an existing column, `filter_data`
keeps exactly the rows whose timestamp lies within the inclusive bounds
(in the table's row order); with a range of any other length, or a
missing column, it returns the table unchanged. -/
theorem claim_C6_date_filter_inclusive (s e : Int) (df : PTable) (c : Str) :
    (c ∈ df.cols →
      filter_data [s, e] df c =
        { df with rows := df.rows.filter (fun r =>
            match r.ts with
            | some t => decide (s ≤ t) && decide (t ≤ e)
            | none => false) }) ∧
    (c ∈ df.cols → ∀ r, r ∈ (filter_data [s, e] df c).rows ↔
        (r ∈ df.rows ∧ ∃ t, r.ts = some t ∧ s ≤ t ∧ t ≤ e)) ∧
    (∀ dr : List Int, dr.length ≠ 2 → filter_data dr df c = df) ∧
    (c ∉ df.cols → ∀ dr : List Int, filter_data dr df c = df) := by
  have hmain : c ∈ df.cols →
      filter_data [s, e] df c =
        { df with rows := df.rows.filter (fun r =>
            match r.ts with
            | some t => decide (s ≤ t) && decide (t ≤ e)
            | none => false) } := by
    intro hc
    unfold filter_data
    rw [if_pos ⟨rfl, hc⟩]
    rfl
  refine ⟨hmain, ?_, ?_, ?_⟩
  · intro hc r
    rw [hmain hc]
    simp only [List.mem_filter]
    constructor
    · rintro ⟨hr, hp⟩
      refine ⟨hr, ?_⟩
      cases hts : r.ts with
      | some t =>
        rw [hts] at hp
        simp only [Bool.and_eq_true, decide_eq_true_eq] at hp
        exact ⟨t, rfl, hp.1, hp.2⟩
      | none => rw [hts] at hp; exact absurd hp (by simp)
    · rintro ⟨hr, t, hts, h1, h2⟩
      refine ⟨hr, ?_⟩
      rw [hts]
      simp only [Bool.and_eq_true, decide_eq_true_eq]
      exact ⟨h1, h2⟩
  · intro dr hdr
    unfold filter_data
    rw [if_neg (fun h => hdr h.1)]
  · intro hc dr
    unfold filter_data
    rw [if_neg (fun h => hc h.2)]

theorem claim_C6_witness :
    (⟨1, some 5⟩ : PRow) ∈
      (filter_data [0, 10] ⟨["created_at".data], [⟨1, some 5⟩, ⟨2, some 50⟩, ⟨3, none⟩]⟩
        "created_at".data).rows :=
  ((claim_C6_date_filter_inclusive 0 10
      ⟨["created_at".data], [⟨1, some 5⟩, ⟨2, some 50⟩, ⟨3, none⟩]⟩
      "created_at".data).2.1 (by decide) ⟨1, some 5⟩).mpr
    ⟨by decide, 5, rfl, by decide, by decide⟩

-- ### C2: category filters

/-- C2: both category filters keep the whole table on an empty selection;
on a non-empty selection the type filter keeps exactly the rows whose
joined type display name is in the selection, and — provided department
identifiers are unique, as a primary key is — the department filter keeps
exactly the rows whose joined department display name is in the
selection. -/
theorem claim_C2_category_filters (sel_d sel_t : List Str) (departments : List DeptRow)
    (docs : List DocRow)
    (huniq : (departments.map (fun t => t.department_id)).Nodup) :
    applyDeptFilter [] departments docs = docs ∧
    applyTypeFilter [] docs = docs ∧
    (sel_d ≠ [] →
      applyDeptFilter sel_d departments docs = docs.filter (specDeptKeep sel_d departments)) ∧
    (sel_t ≠ [] →
      applyTypeFilter sel_t docs = docs.filter (fun d =>
        match d.name with
        | some n => decide (n ∈ sel_t)
        | none => false)) := by
  refine ⟨by unfold applyDeptFilter; rw [if_pos rfl],
          by unfold applyTypeFilter; rw [if_pos rfl], ?_, ?_⟩
  · intro hsel
    unfold applyDeptFilter
    rw [if_neg hsel]
    apply List.filter_congr
    intro d _
    cases hdep : d.department_id with
    | none => simp [specDeptKeep, joinedDeptName, hdep]
    | some i =>
      simp only [specDeptKeep, joinedDeptName, hdep]
      cases hf : departments.find? (fun t => decide (t.department_id = i)) with
      | none =>
        have hno : ∀ t ∈ departments, t.department_id ≠ i := by
          intro t ht
          have := List.find?_eq_none.mp hf t ht
          simpa using this
        show decide (i ∈ deptFilterIds sel_d departments) = false
        refine decide_eq_false ?_
        intro hmem
        simp only [deptFilterIds, List.mem_map, List.mem_filter] at hmem
        obtain ⟨t, ⟨ht, _⟩, hid⟩ := hmem
        exact hno t ht hid
      | some t0 =>
        have ht0id : t0.department_id = i := by
          have := List.find?_some hf
          simpa using this
        have ht0mem : t0 ∈ departments := List.mem_of_find?_eq_some hf
        show decide (i ∈ deptFilterIds sel_d departments) = decide (t0.name ∈ sel_d)
        refine decide_eq_decide.mpr ?_
        constructor
        · intro hmem
          simp only [deptFilterIds, List.mem_map, List.mem_filter] at hmem
          obtain ⟨t, ⟨ht, hname⟩, hid⟩ := hmem
          have : t = t0 :=
            List.inj_on_of_nodup_map huniq ht ht0mem (hid.trans ht0id.symm)
          rw [← this]
          simpa using hname
        · intro hname
          simp only [deptFilterIds, List.mem_map, List.mem_filter]
          exact ⟨t0, ⟨ht0mem, by simpa using hname⟩, ht0id⟩
  · intro hsel
    unfold applyTypeFilter
    rw [if_neg hsel]

theorem claim_C2_witness :
    applyDeptFilter ["HR".data] [⟨1, "HR".data⟩, ⟨2, "IT".data⟩]
        [exDoc 1 none none none (some 1), exDoc 2 none none none (some 2),
         exDoc 3 none none none none] =
      [exDoc 1 none none none (some 1), exDoc 2 none none none (some 2),
       exDoc 3 none none none none].filter
        (specDeptKeep ["HR".data] [⟨1, "HR".data⟩, ⟨2, "IT".data⟩]) :=
  (claim_C2_category_filters ["HR".data] [] [⟨1, "HR".data⟩, ⟨2, "IT".data⟩]
    [exDoc 1 none none none (some 1), exDoc 2 none none none (some 2),
     exDoc 3 none none none none] (by decide)).2.2.1 (by decide)

-- ### C8: all-or-nothing data loading

/-- C8: `load_data` returns the failure sentinel when the connection is
unavailable or any of the eight table reads raises, and whenever it does
return a mapping, every read succeeded and the mapping is the complete
eight-table result of those reads (with the two left merges applied) —
never a partial dataset. -/
theorem claim_C8_load_data_all_or_nothing
    (qUsers : Except Str (List RawUser)) (qDocs : Except Str (List RawDoc))
    (qTypes : Except Str (List TypeRow)) (qDepts : Except Str (List DeptRow))
    (qAnns : Except Str (List AnnRow)) (qNotifs : Except Str (List AnnRow))
    (qVersions : Except Str (List Int)) (qDocDepts : Except Str (List (Int × Int))) :
    (load_data none qUsers qDocs qTypes qDepts qAnns qNotifs qVersions qDocDepts = none) ∧
    (((∃ e, qUsers = .error e) ∨ (∃ e, qDocs = .error e) ∨ (∃ e, qTypes = .error e) ∨
      (∃ e, qDepts = .error e) ∨ (∃ e, qAnns = .error e) ∨ (∃ e, qNotifs = .error e) ∨
      (∃ e, qVersions = .error e) ∨ (∃ e, qDocDepts = .error e)) →
      ∀ engine, load_data engine qUsers qDocs qTypes qDepts qAnns qNotifs qVersions
        qDocDepts = none) ∧
    (∀ engine m, load_data engine qUsers qDocs qTypes qDepts qAnns qNotifs qVersions
        qDocDepts = some m →
      ∃ us ds ts dp an nt vv dd,
        qUsers = .ok us ∧ qDocs = .ok ds ∧ qTypes = .ok ts ∧ qDepts = .ok dp ∧
        qAnns = .ok an ∧ qNotifs = .ok nt ∧ qVersions = .ok vv ∧ qDocDepts = .ok dd ∧
        m = { users := mergeUsersDepts us dp, documents := mergeDocsTypes ds ts,
              announcements := an, notifications := nt, doc_versions := vv,
              doc_depts := dd, departments := dp, document_types := ts }) := by
  refine ⟨rfl, ?_, ?_⟩
  · intro h engine
    cases engine with
    | none => rfl
    | some u =>
      cases qUsers <;> cases qDocs <;> cases qTypes <;> cases qDepts <;>
        cases qAnns <;> cases qNotifs <;> cases qVersions <;> cases qDocDepts <;>
        simp [load_data] at h ⊢
  · intro engine m hm
    cases engine with
    | none => exact absurd hm (by simp [load_data])
    | some u =>
      cases qUsers with
      | error e => simp [load_data] at hm
      | ok us =>
      cases qDocs with
      | error e => simp [load_data] at hm
      | ok ds =>
      cases qTypes with
      | error e => simp [load_data] at hm
      | ok ts =>
      cases qDepts with
      | error e => simp [load_data] at hm
      | ok dp =>
      cases qAnns with
      | error e => simp [load_data] at hm
      | ok an =>
      cases qNotifs with
      | error e => simp [load_data] at hm
      | ok nt =>
      cases qVersions with
      | error e => simp [load_data] at hm
      | ok vv =>
      cases qDocDepts with
      | error e => simp [load_data] at hm
      | ok dd =>
        refine ⟨us, ds, ts, dp, an, nt, vv, dd, rfl, rfl, rfl, rfl, rfl, rfl, rfl, rfl, ?_⟩
        exact (Option.some.inj hm).symm

theorem claim_C8_witness :
    load_data (some ()) (Except.error "boom".data) (.ok []) (.ok []) (.ok []) (.ok [])
      (.ok []) (.ok []) (.ok []) = none :=
  (claim_C8_load_data_all_or_nothing (Except.error "boom".data) (.ok []) (.ok []) (.ok [])
    (.ok []) (.ok []) (.ok []) (.ok [])).2.1 (Or.inl ⟨"boom".data, rfl⟩) (some ())

-- ### C9: executive summary uses the unfiltered tables

/-- C9: for every filtered table, date range and filter selection, the
report carries the four executive-summary metric cards whose values are
the row counts of the unfiltered loaded tables (and the active-document
count over the unfiltered document table); they do not depend on the
filtered arguments at all. -/
theorem claim_C9_exec_summary_unfiltered (data : DataMap) (fd : List DocRow)
    (now : Str) (dr dl tl : List Str) :
    metricCard "Total Documents".data (.i (total_docs data)) ∈
      create_pdf_report data fd now dr dl tl ∧
    metricCard "Total Users".data (.i (total_users data)) ∈
      create_pdf_report data fd now dr dl tl ∧
    metricCard "Active Documents".data (.i (active_docs data)) ∈
      create_pdf_report data fd now dr dl tl ∧
    metricCard "Announcements".data (.i (total_announcements data)) ∈
      create_pdf_report data fd now dr dl tl ∧
    total_docs data = data.documents.length ∧
    total_users data = data.users.length ∧
    active_docs data =
      (data.documents.filter (fun d => decide (d.status = some "active".data))).length ∧
    total_announcements data = data.announcements.length := by
  refine ⟨?_, ?_, ?_, ?_, rfl, rfl, rfl, rfl⟩ <;>
    simp [create_pdf_report, execSummarySection, List.mem_append]

-- ### C1: the conditional detailed document list

/-- C1 counterexample: an empty filtered set has at most 20 rows, yet the
code (guarded by `not filtered_docs.empty`) emits no detailed table, so
"emitted iff at most 20 rows" fails at the empty table. -/
theorem claim_C1_counterexample :
    ([] : List DocRow).length ≤ 20 ∧ detailedSection [] = [] :=
  ⟨by decide, rfl⟩

/-- C1 (amended): the detailed listing is emitted iff the filtered set is
nonempty and has at most 20 rows; with exactly 20 rows it carries exactly
20 data rows, one per record in the filtered set's row order; with 21 or
more rows it is absent; and the report ends with this section. -/
theorem claim_C1_detailed_listing (fd : List DocRow) (data : DataMap) (now : Str)
    (dr dl tl : List Str) :
    (detailedSection fd ≠ [] ↔ fd ≠ [] ∧ fd.length ≤ 20) ∧
    (fd.length = 20 →
      detailedSection fd =
        "DETAILED DOCUMENT LIST".data :: detailHeaderCells ++ (detailedRows fd).flatten ∧
      (detailedRows fd).length = 20 ∧ detailedRows fd = fd.map detailRowCells) ∧
    (21 ≤ fd.length → detailedSection fd = []) ∧
    create_pdf_report data fd now dr dl tl =
      (metadataSection now dr dl tl ++ execSummarySection data ++ docAnalysisSection fd ++
       userAnalysisSection data ++ recentActivitySection fd) ++ detailedSection fd := by
  refine ⟨?_, ?_, ?_, by simp [create_pdf_report, List.append_assoc]⟩
  · unfold detailedSection
    split
    · next h =>
      constructor
      · intro _; exact h
      · intro _; exact List.cons_ne_nil _ _
    · next h =>
      constructor
      · intro hne; exact absurd rfl hne
      · intro hc; exact absurd hc h
  · intro h20
    have hne : fd ≠ [] := by
      intro hnil
      rw [hnil] at h20
      simp at h20
    unfold detailedSection
    rw [if_pos ⟨hne, by omega⟩]
    exact ⟨rfl, by simp [detailedRows, h20], rfl⟩
  · intro h21
    unfold detailedSection
    rw [if_neg]
    rintro ⟨_, hle⟩
    omega

theorem claim_C1_witness :
    (detailedRows (List.replicate 20 (exDoc 1 none none none none))).length = 20 :=
  ((claim_C1_detailed_listing (List.replicate 20 (exDoc 1 none none none none))
    exData "now".data [] [] []).2.1 (by simp)).2.1

-- ### C3: grouped-count breakdowns

theorem valueCounts_col_sum {α β : Type} [DecidableEq α] (f : β → Option α) (l : List β) :
    ((valueCounts (l.map f)).map Prod.snd).sum = (l.filter (fun x => (f x).isSome)).length := by
  rw [valueCounts_sum, length_filterMap_id, List.filter_map]
  simp only [List.length_map]
  rfl

/-- C3 counterexample: on a one-row filtered table whose joined type name
is null, `value_counts` drops the null, so the type-breakdown counts sum
to 0, not to the row count 1. -/
theorem claim_C3_counterexample :
    ((valueCounts (cexNullName.map (fun d => d.name))).map Prod.snd).sum = 0 ∧
    cexNullName.length = 1 ∧
    ((valueCounts (cexNullName.map (fun d => d.name))).map Prod.snd).sum ≠
      cexNullName.length := by
  decide

/-- C3 (amended): each grouped-count breakdown of the report sums to the
number of rows of its source table whose grouped column is non-null
(pandas `value_counts` drops nulls); this equals the full row count
exactly when the column has no nulls.  One report line is emitted per
`value_counts` entry. -/
theorem claim_C3_breakdown_sums (fd : List DocRow) (data : DataMap) :
    ((valueCounts (fd.map (fun d => d.name))).map Prod.snd).sum =
      (fd.filter (fun d => d.name.isSome)).length ∧
    ((valueCounts (fd.map (fun d => d.status))).map Prod.snd).sum =
      (fd.filter (fun d => d.status.isSome)).length ∧
    ((valueCounts (data.users.map (fun u => u.role))).map Prod.snd).sum =
      (data.users.filter (fun u => u.role.isSome)).length ∧
    ((valueCounts (data.users.map (fun u => u.status))).map Prod.snd).sum =
      (data.users.filter (fun u => u.status.isSome)).length ∧
    (docTypeLines fd).length = (valueCounts (fd.map (fun d => d.name))).length ∧
    (docStatusLines fd).length = (valueCounts (fd.map (fun d => d.status))).length ∧
    (userRoleLines data.users).length =
      (valueCounts (data.users.map (fun u => u.role))).length ∧
    (userStatusLines data.users).length =
      (valueCounts (data.users.map (fun u => u.status))).length :=
  ⟨valueCounts_col_sum _ fd, valueCounts_col_sum _ fd,
   valueCounts_col_sum _ data.users, valueCounts_col_sum _ data.users,
   by simp [docTypeLines], by simp [docStatusLines],
   by simp [userRoleLines], by simp [userStatusLines]⟩

-- ### C7: the recent-activity top five

theorem insertTsDesc_perm (x : DocRow) : ∀ l, (insertTsDesc x l).Perm (x :: l) := by
  intro l
  induction l with
  | nil => simp [insertTsDesc]
  | cons y ys ih =>
    rw [insertTsDesc]
    split
    · exact (ih.cons y).trans (List.Perm.swap x y ys)
    · exact List.Perm.refl _

theorem sortTsDesc_perm : ∀ l : List DocRow, (sortTsDesc l).Perm l := by
  intro l
  induction l with
  | nil => simp [sortTsDesc]
  | cons x xs ih => exact (insertTsDesc_perm x (sortTsDesc xs)).trans (ih.cons x)

theorem insertTsDesc_pairwise (x : DocRow) :
    ∀ l, List.Pairwise (fun a b => tsKey b ≤ tsKey a) l →
      List.Pairwise (fun a b => tsKey b ≤ tsKey a) (insertTsDesc x l) := by
  intro l
  induction l with
  | nil => intro _; simp [insertTsDesc]
  | cons y ys ih =>
    intro hp
    rcases List.pairwise_cons.mp hp with ⟨hy, hys⟩
    rw [insertTsDesc]
    split
    · next hlt =>
      refine List.pairwise_cons.mpr ⟨?_, ih hys⟩
      intro b hb
      rcases List.mem_cons.mp ((insertTsDesc_perm x ys).mem_iff.mp hb) with rfl | hbys
      · exact le_of_lt hlt
      · exact hy b hbys
    · next hnlt =>
      refine List.pairwise_cons.mpr ⟨?_, hp⟩
      intro b hb
      rcases List.mem_cons.mp hb with rfl | hbys
      · exact not_lt.mp hnlt
      · exact le_trans (hy b hbys) (not_lt.mp hnlt)

theorem sortTsDesc_pairwise :
    ∀ l : List DocRow, List.Pairwise (fun a b => tsKey b ≤ tsKey a) (sortTsDesc l) := by
  intro l
  induction l with
  | nil => simp [sortTsDesc]
  | cons x xs ih => exact insertTsDesc_pairwise x (sortTsDesc xs) ih

/-- C7 counterexample: a filtered set of 2 rows (fewer than 5), one with a
null creation timestamp.  `nlargest` excludes the null-keyed row, so only
1 document is listed, not all 2. -/
theorem claim_C7_counterexample :
    [exDoc 1 none none none none, exDoc 2 none none (some 10) none].length = 2 ∧
    (nlargestByCreated 5
      [exDoc 1 none none none none, exDoc 2 none none (some 10) none]).length = 1 := by
  decide

/-- C7 (amended): the recent-activity list holds at most 5 documents, in
creation-timestamp-descending order; they are the largest-timestamp rows
among those with a non-null timestamp; when at most 5 rows have a
non-null timestamp all of those (and only those) are listed; and a title
whose `str` is longer than 50 characters is rendered truncated to 50
characters with an ellipsis marker. -/
theorem claim_C7_recent_activity (fd : List DocRow) :
    (nlargestByCreated 5 fd).length ≤ 5 ∧
    List.Pairwise (fun a b => tsKey b ≤ tsKey a) (nlargestByCreated 5 fd) ∧
    (∃ rest, (fd.filter (fun d => d.created_at.isSome)).Perm
        (nlargestByCreated 5 fd ++ rest) ∧
      ∀ a ∈ nlargestByCreated 5 fd, ∀ b ∈ rest, tsKey b ≤ tsKey a) ∧
    ((fd.filter (fun d => d.created_at.isSome)).length ≤ 5 →
      (nlargestByCreated 5 fd).Perm (fd.filter (fun d => d.created_at.isSome))) ∧
    (∀ d ∈ nlargestByCreated 5 fd, 50 < (pyStr (pyTitle d)).length →
      recentTitleCell d = "- ".data ++ ((safe_text (pyTitle d)).take 50 ++ "...".data)) ∧
    recentActivitySection fd = "RECENT ACTIVITY".data ::
      (if fd ≠ [] then "Recent Documents:".data ::
        ((nlargestByCreated 5 fd).map (fun d => [recentTitleCell d, recentInfoCell d])).flatten
       else ["No recent activity data available".data]) := by
  refine ⟨?_, ?_, ?_, ?_, ?_, rfl⟩
  · unfold nlargestByCreated
    simp [List.length_take]
  · exact (sortTsDesc_pairwise _).sublist
      (List.take_sublist 5 (sortTsDesc (fd.filter (fun d => d.created_at.isSome))))
  · refine ⟨(sortTsDesc (fd.filter (fun d => d.created_at.isSome))).drop 5, ?_, ?_⟩
    · have h1 := (sortTsDesc_perm (fd.filter (fun d => d.created_at.isSome))).symm
      rw [← List.take_append_drop 5
        (sortTsDesc (fd.filter (fun d => d.created_at.isSome)))] at h1
      exact h1
    · have hp := sortTsDesc_pairwise (fd.filter (fun d => d.created_at.isSome))
      rw [← List.take_append_drop 5
        (sortTsDesc (fd.filter (fun d => d.created_at.isSome)))] at hp
      exact (List.pairwise_append.mp hp).2.2
  · intro hlen
    have hslen : (sortTsDesc (fd.filter (fun d => d.created_at.isSome))).length ≤ 5 :=
      le_of_le_of_eq
        (le_of_eq (sortTsDesc_perm (fd.filter (fun d => d.created_at.isSome))).length_eq)
        rfl |>.trans hlen
    unfold nlargestByCreated
    rw [List.take_of_length_le hslen]
    exact sortTsDesc_perm _
  · intro d _ hlen
    unfold recentTitleCell
    rw [if_pos hlen]

theorem claim_C7_witness :
    (nlargestByCreated 5 [exDoc 1 none none none none, exDoc 2 none none (some 10) none]).Perm
      ([exDoc 1 none none none none, exDoc 2 none none (some 10) none].filter
        (fun d => d.created_at.isSome)) :=
  (claim_C7_recent_activity
    [exDoc 1 none none none none, exDoc 2 none none (some 10) none]).2.2.2.1 (by decide)

-- ### C5: sanitizer coverage of the artifact

/-- C5: the claim that every database-originated text value is sanitized
to ASCII before being placed into the artifact fails on the code: the
metadata lines (pdf_generator.py lines 109-110) embed the raw filter
selections without `safe_text`.  With a department selection containing
`'Dépt'` (é = U+00E9), the artifact receives a cell with a non-ASCII
character. -/
theorem claim_C5_unsanitized_metadata_cell :
    ∃ cell ∈ create_pdf_report exData [] "now".data ["d1".data, "d2".data]
      [['D', Char.ofNat 0xE9, 'p', 't']] [],
      ∃ c ∈ cell, 128 ≤ c.toNat := by
  decide
